import Mathlib

/-!
Shallow embedding of the caching core of the `qrzlib` repository.

Two near-duplicate revisions are embedded:
  * `DBMCache` and the orchestrator `QRZ.get_call` from `src/qrzlib/__init__.py`;
  * `GDBMCache` (the decorator-based revision) from `src/qrzlib.py`.

Modelling conventions:
  * the backing dbm/gdbm file is an association list with distinct keys
    (`Dict`); `pickle`/`marshal` round-trips are the identity, so values are
    stored unserialized;
  * wall-clock time (`datetime.now()` / `time.time()`) is an integer
    number of seconds passed explicitly to each operation that samples the clock;
  * a Python `KeyError` raised by an operation is `none` / `Except.error`;
    `SystemError` raised by TTL parsing is `none` from the parser.
-/

namespace Qrzlib

/-- A Python dict / dbm file: association list, insertion keeps keys unique. -/
def Dict (α : Type) : Type := List (String × α)

namespace Dict

def lookup (d : Dict α) (k : String) : Option α :=
  match d with
  | [] => none
  | (k', v) :: rest => if k' = k then some v else lookup rest k

/-- Deletion `del d[k]` after a membership test, or an overwrite's cleanup. -/
def erase (d : Dict α) (k : String) : Dict α :=
  match d with
  | [] => []
  | (k', v) :: rest => if k' = k then erase rest k else (k', v) :: erase rest k

/-- Assignment `d[k] = v`: overwrites any existing binding of `k`. -/
def insert (d : Dict α) (k : String) (v : α) : Dict α :=
  (k, v) :: d.erase k

/-- Membership test `k in d`. -/
def contains (d : Dict α) (k : String) : Bool :=
  match d with
  | [] => false
  | (k', _) :: rest => k' = k || contains rest k

/-- Entry count `len(d)`. -/
def size (d : Dict α) : Nat := d.length

instance : EmptyCollection (Dict α) := ⟨([] : List (String × α))⟩

end Dict

/-- A scalar value living in one of the marshalled records of `qrzlib.py`
(string fields from the XML, the numeric expiry timestamp, or `None`). -/
inductive PyObj where
  | pyNone : PyObj
  | pyStr (s : String) : PyObj
  | pyNum (t : ℤ) : PyObj
deriving DecidableEq, Repr

/-! ## TTL-expression parsing

Both revisions parse the cache-expiration expression with
`re.match(r'^(\d+)(|[YMWDH])$', expire, re.IGNORECASE)` and multiply the
integer magnitude by a per-unit multiplier. -/

/-- Value of digit characters, `int(match.group(1))`. -/
def digitsToNat (cs : List Char) : Nat :=
  cs.foldl (fun n c => 10 * n + (c.toNat - '0'.toNat)) 0

/-- Group 2 of the regex: empty or a single unit letter, case-insensitive. -/
def isUnitChar (c : Char) : Bool :=
  c = 'Y' || c = 'M' || c = 'W' || c = 'D' || c = 'H' ||
  c = 'y' || c = 'm' || c = 'w' || c = 'd' || c = 'h'

/-- Model of `str.upper()` on the characters group 2 can contain (the five unit
letters). -/
def upperUnit (c : Char) : Char :=
  if c = 'y' then 'Y' else if c = 'm' then 'M' else if c = 'w' then 'W'
  else if c = 'd' then 'D' else if c = 'h' then 'H' else c

/-- Model of `re.match(r'^(\d+)(|[YMWDH])$', s, re.IGNORECASE)`: the magnitude and the
upper-cased unit (`match.group(2).upper()`), or `none` when the pattern does
not match. -/
def parseExpire (s : String) : Option (Nat × String) :=
  let cs := s.toList
  let ds := cs.takeWhile (fun c => c.isDigit)
  let rest := cs.dropWhile (fun c => c.isDigit)
  if ds = [] then none
  else
    match rest with
    | [] => some (digitsToNat ds, "")
    | [c] => if isUnitChar c then some (digitsToNat ds, String.mk [upperUnit c]) else none
    | _ => none

/-- Table `DBMCache._EXPIRE_MULTIPLIER` (identical to `GDBMCache._EXPIRE_MULT`):
seconds per unit.  The month entry is `3600 * 24 * 30.5` in the source, whose
exact value is the integer `2635200`, written here with exact integer
division. -/
def _EXPIRE_MULTIPLIER (unit : String) : Option ℤ :=
  match unit with
  | "" => some 60
  | "H" => some 3600
  | "D" => some (3600 * 24)
  | "W" => some (3600 * 24 * 7)
  | "M" => some (3600 * 24 * 61 / 2)
  | "Y" => some (3600 * 24 * 7 * 52)
  | _ => none

/-- TTL seconds computed by the constructors: `_time * _EXPIRE_MULTIPLIER[_mult]`,
`none` when the expression does not parse (the constructor raises
`SystemError`, the spec's `ConfigurationError`). -/
def cacheExpireOf (expire : String) : Option ℤ :=
  match parseExpire expire with
  | none => none
  | some (t, u) =>
    match _EXPIRE_MULTIPLIER u with
    | none => none
    | some m => some (t * m)

/-! ## `DBMCache` (`src/qrzlib/__init__.py`, lines 201-271) -/

/-- Dataclass `CacheRecord(age, data)`: the pickled pair stored under each key. -/
structure CacheRecord (V : Type) where
  age : ℤ
  data : V
deriving DecidableEq, Repr

/-- State of `DBMCache`: TTL seconds (`self._cache_expire`) plus the backing dbm file. -/
structure DBMCache (V : Type) where
  _cache_expire : ℤ
  store : Dict (CacheRecord V)

/-- Constructor `DBMCache.__init__(cache_name, cache_expire)`: parse the TTL and start
from the (empty) backing file; `none` models the `SystemError` raised on a
malformed expression. -/
def DBMCache.construct (V : Type) (cache_expire : String) : Option (DBMCache V) :=
  (cacheExpireOf cache_expire).map (fun q => ⟨q, ∅⟩)

/-- Operation `DBMCache.put(key, data)`: store `CacheRecord(datetime.now(), data)` under
`key`, overwriting. -/
def DBMCache.put (db : DBMCache V) (key : String) (data : V) (now : ℤ) : DBMCache V :=
  { db with store := db.store.insert key ⟨now, data⟩ }

/-- Operation `DBMCache.get(key)`: `KeyError` (`none`) when the key is absent or when
`data.age + timedelta(seconds=self._cache_expire) < datetime.now()`; otherwise
the stored payload. -/
def DBMCache.get (db : DBMCache V) (key : String) (now : ℤ) : Option V :=
  match db.store.lookup key with
  | none => none
  | some data =>
    if data.age + db._cache_expire < now then none else some data.data

/-- Operation `DBMCache.remove(key)`: `del fdb[key]`, which raises `KeyError` (`none`)
when the key is absent; on success it returns `None`, not a boolean. -/
def DBMCache.remove (db : DBMCache V) (key : String) : Option (DBMCache V) :=
  if db.store.contains key then some { db with store := db.store.erase key } else none

/-- Operation `DBMCache.__len__`: number of entries in the backing file. -/
def DBMCache.len (db : DBMCache V) : Nat := db.store.size

/-! ## `GDBMCache` (`src/qrzlib.py`, lines 35-154) -/

/-- A marshalled record: a flat dict of field values. -/
def Record : Type := Dict PyObj

instance : DecidableEq Record :=
  inferInstanceAs (DecidableEq (List (String × PyObj)))

/-- Constant `self._kexpire = f"_{self.__class__.__name__}_expire_"`. -/
def GDBMCache._kexpire : String := "_GDBMCache_expire_"

/-- State of `GDBMCache`: expiration seconds (`self._expire`) plus the gdbm file. -/
structure GDBMCache where
  _expire : ℤ
  store : Dict Record

/-- Constructor `GDBMCache.__init__` with a string expiration: parse as `DBMCache` does.
An `int` expiration is taken as seconds directly (the decorator in the source
uses the default `expire=0`). -/
def GDBMCache.construct (expire : String) : Option GDBMCache :=
  (cacheExpireOf expire).map (fun q => ⟨q, ∅⟩)

/-- Operation `GDBMCache.get_key(key)`: `KeyError` (`none`) when the key is absent or
the entry is stale; on a fresh hit, delete the internal expiry key from the
record and return it.  Freshness:
`self._expire == 0 or record[self._kexpire] > time.time() - self._expire`.
Entries written by `store_key` always carry a numeric timestamp under
`_kexpire`; a record without one makes the source raise on
`record[self._kexpire]` / `del record[self._kexpire]` (`none` here). -/
def GDBMCache.get_key (c : GDBMCache) (key : String) (now : ℤ) : Option Record :=
  match c.store.lookup key with
  | none => none
  | some record =>
    match Dict.lookup record GDBMCache._kexpire with
    | some (PyObj.pyNum t) =>
      if c._expire = 0 ∨ t > now - c._expire then
        some (Dict.erase record GDBMCache._kexpire)
      else none
    | _ => none

/-- Operation `GDBMCache.expire(key)`: delete the entry when present and report whether
a deletion occurred. -/
def GDBMCache.expire (c : GDBMCache) (key : String) : Bool × GDBMCache :=
  if c.store.contains key then (true, { c with store := c.store.erase key })
  else (false, c)

/-- Operation `GDBMCache.store_key(key, data)`: `data[self._kexpire] = time.time()`
mutates the caller's dict in place before marshalling; the first component is
that mutated dict (the very object the caller still holds). -/
def GDBMCache.store_key (c : GDBMCache) (key : String) (data : Record) (now : ℤ) :
    Record × GDBMCache :=
  let data := Dict.insert data GDBMCache._kexpire (PyObj.pyNum now)
  (data, { c with store := c.store.insert key data })

/-- The wrapper `gdb_cache` produced by `GDBMCache.__call__`: on a cache hit
return the cached record; on a miss run the wrapped fetch (`func`), store its
result (mutating it in place) and return that mutated record.  A failing fetch
propagates (`IOError` re-raised, anything else uncaught). -/
def GDBMCache.gdb_cache (c : GDBMCache) (key : String) (func : Except String Record)
    (now : ℤ) : Except String (Record × GDBMCache) :=
  match c.get_key key now with
  | some record => Except.ok (record, c)
  | none =>
    match func with
    | Except.error err => Except.error err
    | Except.ok record =>
      let rc := c.store_key key record now
      Except.ok rc

/-! ## `QRZ.get_call`, the lookup orchestrator (`src/qrzlib/__init__.py`,
lines 274-347)

`QRZ._get_call` (an authenticated network call plus XML parsing) is the
external fetch collaborator; its outcome at the moment `get_call` would run it
is a `FetchResult` parameter. -/

/-- Outcome of one invocation of the fetch collaborator `QRZ._get_call`:
a record, a `KeyError` (the upstream authoritative "not found", raised with
the session's error text), or any other exception (`SessionError`, transport
errors, ...). -/
inductive FetchResult (V : Type) where
  | ok (data : V) : FetchResult V
  | notFound (msg : String) : FetchResult V
  | fail (e : String) : FetchResult V
deriving DecidableEq, Repr

/-- What `QRZ.get_call` does for the caller: return a record, return `None`
(known absent), or let an exception propagate. -/
inductive CallOutcome (V : Type) where
  | found (data : V) : CallOutcome V
  | knownAbsent : CallOutcome V
  | raised (e : String) : CallOutcome V
deriving DecidableEq, Repr

/-- The two stores of a `QRZ` instance: `self._cache = DBMCache(DBM_CACHE,
cache_age)` (positive, records) and `self._error = DBMCache(DBM_ERROR, '3M')`
(negative, error strings). -/
structure QRZState (V : Type) where
  _cache : DBMCache V
  _error : DBMCache String

/-- Orchestrator `QRZ.get_call(callsign)`: try the positive store; on `KeyError` try the
negative store (returning `None` on a hit); on `KeyError` again run the fetch
collaborator, caching its record positively, or its `KeyError` text
negatively (then returning `None`), and letting any other exception propagate
with both stores untouched.  The boolean reports whether the collaborator was
invoked. -/
def QRZ.get_call (st : QRZState V) (callsign : String) (fetch : FetchResult V)
    (now : ℤ) : CallOutcome V × QRZState V × Bool :=
  match st._cache.get callsign now with
  | some data => (CallOutcome.found data, st, false)
  | none =>
    match st._error.get callsign now with
    | some _ => (CallOutcome.knownAbsent, st, false)
    | none =>
      match fetch with
      | FetchResult.ok data =>
        (CallOutcome.found data, ⟨st._cache.put callsign data now, st._error⟩, true)
      | FetchResult.notFound msg =>
        (CallOutcome.knownAbsent, ⟨st._cache, st._error.put callsign msg now⟩, true)
      | FetchResult.fail e => (CallOutcome.raised e, st, true)

/-! ## Dictionary lemmas -/

theorem Dict.lookup_insert_self (d : Dict α) (k : String) (v : α) :
    (d.insert k v).lookup k = some v := by
  simp [Dict.insert, Dict.lookup]

theorem Dict.lookup_erase_self (d : Dict α) (k : String) :
    (d.erase k).lookup k = none := by
  induction d with
  | nil => rfl
  | cons p rest ih =>
    obtain ⟨k', v⟩ := p
    by_cases h : k' = k
    · simpa [Dict.erase, h] using ih
    · simpa [Dict.erase, Dict.lookup, h] using ih

theorem Dict.lookup_erase_ne (d : Dict α) (k k' : String) (h : k' ≠ k) :
    (d.erase k).lookup k' = d.lookup k' := by
  induction d with
  | nil => rfl
  | cons p rest ih =>
    obtain ⟨k'', v⟩ := p
    by_cases h1 : k'' = k
    · subst h1
      simpa [Dict.erase, Dict.lookup, Ne.symm h] using ih
    · by_cases h2 : k'' = k'
      · subst h2
        simp [Dict.erase, Dict.lookup, h1, h]
      · simpa [Dict.erase, Dict.lookup, h1, h2] using ih

theorem Dict.lookup_insert_ne (d : Dict α) (k k' : String) (v : α) (h : k' ≠ k) :
    (d.insert k v).lookup k' = d.lookup k' := by
  simp [Dict.insert, Dict.lookup, Ne.symm h, Dict.lookup_erase_ne d k k' h]

theorem Dict.erase_erase_self (d : Dict α) (k : String) :
    (d.erase k).erase k = d.erase k := by
  induction d with
  | nil => rfl
  | cons p rest ih =>
    obtain ⟨k', v⟩ := p
    by_cases h : k' = k
    · simpa [Dict.erase, h] using ih
    · simp [Dict.erase, h, ih]

theorem Dict.erase_insert_self (d : Dict α) (k : String) (v : α) :
    (d.insert k v).erase k = d.erase k := by
  simp [Dict.insert, Dict.erase, Dict.erase_erase_self]

theorem Dict.contains_eq_false_lookup (d : Dict α) (k : String)
    (h : d.contains k = false) : d.lookup k = none := by
  induction d with
  | nil => rfl
  | cons p rest ih =>
    obtain ⟨k', v⟩ := p
    simp only [Dict.contains, Bool.or_eq_false_iff, decide_eq_false_iff_not] at h
    simp [Dict.lookup, h.1, ih h.2]

/-! ## Behaviour of a freshly written entry -/

/-- Reading with `get` the key just written by `put`: fresh exactly when
`storedAt + ttl < now` fails. -/
theorem DBMCache.get_put_self {V : Type} (ttl t0 now : ℤ) (v : V) (k : String)
    (d : Dict (CacheRecord V)) :
    (DBMCache.put ⟨ttl, d⟩ k v t0).get k now
      = if t0 + ttl < now then none else some v := by
  simp [DBMCache.put, DBMCache.get, Dict.lookup_insert_self]

/-- Reading with `get_key` the key just written by `store_key`: fresh exactly when
`expire == 0 or storedAt > now - expire`, and on a hit the internal expiry
key has been deleted from the returned record. -/
theorem GDBMCache.get_key_store_self (ttl t0 now : ℤ) (k : String) (r : Record)
    (c : Dict Record) :
    (GDBMCache.store_key ⟨ttl, c⟩ k r t0).2.get_key k now
      = if ttl = 0 ∨ t0 > now - ttl then some (Dict.erase r GDBMCache._kexpire)
        else none := by
  simp [GDBMCache.store_key, GDBMCache.get_key, Dict.lookup_insert_self,
    Dict.erase_insert_self]

/-! ## Claim theorems -/

/-- C1, counterexample: with `ttlSeconds = 3600` (from `"1H"`), an entry
written at time 0 and read at elapsed time exactly `T = 3600` is still
returned by `DBMCache.get` — the claim says `get` fails at elapsed time
exactly `T`. -/
theorem dbm_get_fresh_at_exact_ttl :
    (DBMCache.construct Nat "1H").map (fun db => (db.put "K" 7 0).get "K" 3600)
      = some (some 7) := by decide

/-- C1 (amended): for an entry with `ttlSeconds = T > 0`, `DBMCache.get`
returns the value when elapsed time `≤ T` and fails (`KeyError`) when elapsed
time `> T` — at exactly `T` the entry is still fresh; `GDBMCache.get_key`
returns the value when elapsed time `< T` and fails when elapsed time `≥ T`. -/
theorem expiry_boundary_by_revision {V : Type} (ttl t0 now : ℤ) (v : V)
    (k : String) (d : Dict (CacheRecord V)) (r : Record) (c : Dict Record)
    (hT : 0 < ttl) :
    ((now - t0 ≤ ttl → (DBMCache.put ⟨ttl, d⟩ k v t0).get k now = some v)
      ∧ (ttl < now - t0 → (DBMCache.put ⟨ttl, d⟩ k v t0).get k now = none))
    ∧ ((now - t0 < ttl →
          (GDBMCache.store_key ⟨ttl, c⟩ k r t0).2.get_key k now
            = some (Dict.erase r GDBMCache._kexpire))
      ∧ (ttl ≤ now - t0 →
          (GDBMCache.store_key ⟨ttl, c⟩ k r t0).2.get_key k now = none)) := by
  refine ⟨⟨fun h => ?_, fun h => ?_⟩, fun h => ?_, fun h => ?_⟩
  · rw [DBMCache.get_put_self, if_neg (by omega)]
  · rw [DBMCache.get_put_self, if_pos (by omega)]
  · rw [GDBMCache.get_key_store_self, if_pos (by omega)]
  · rw [GDBMCache.get_key_store_self, if_neg (by omega)]

/-- Witness for `expiry_boundary_by_revision` at `ttl = 3600`, written at 0,
read at 3600. -/
theorem expiry_boundary_by_revision_witness :
    ((0 : ℤ) < 3600)
    ∧ ((DBMCache.put ⟨3600, (∅ : Dict (CacheRecord Nat))⟩ "K" 7 0).get "K" 3600
        = some 7)
    ∧ ((GDBMCache.store_key ⟨3600, ∅⟩ "K" [("call", PyObj.pyStr "W6BSD")] 0).2.get_key
        "K" 3600 = none) :=
  ⟨by norm_num,
   (expiry_boundary_by_revision 3600 0 3600 7 "K" ∅ [("call", PyObj.pyStr "W6BSD")] ∅
      (by norm_num)).1.1 (by norm_num),
   (expiry_boundary_by_revision 3600 0 3600 7 "K" (∅ : Dict (CacheRecord Nat))
      [("call", PyObj.pyStr "W6BSD")] ∅ (by norm_num)).2.2 (by norm_num)⟩

/-- C2, counterexample: a `DBMCache` constructed with the TTL expression `"0"`
has `ttlSeconds = 0`, yet an entry written at time 0 is already `KeyError` at
elapsed time 1 — the claim says a zero TTL never expires. -/
theorem dbm_zero_ttl_expires :
    (DBMCache.construct Nat "0").map (fun db => (db.put "K" 7 0).get "K" 1)
      = some none := by decide

/-- C2 (amended): a zero TTL means "never expires" only in the decorator
revision — `GDBMCache.get_key` with `self._expire == 0` returns the stored
record at every later time; `DBMCache` has no zero special case, so with
`ttlSeconds = 0` its `get` succeeds only while no time has elapsed and fails
as soon as `now > storedAt`. -/
theorem zero_ttl_by_revision {V : Type} (t0 now : ℤ) (k : String) (v : V)
    (d : Dict (CacheRecord V)) (r : Record) (c : Dict Record) :
    ((GDBMCache.store_key ⟨0, c⟩ k r t0).2.get_key k now
        = some (Dict.erase r GDBMCache._kexpire))
    ∧ (now ≤ t0 → (DBMCache.put ⟨0, d⟩ k v t0).get k now = some v)
    ∧ (t0 < now → (DBMCache.put ⟨0, d⟩ k v t0).get k now = none) := by
  refine ⟨?_, fun h => ?_, fun h => ?_⟩
  · rw [GDBMCache.get_key_store_self, if_pos (Or.inl rfl)]
  · rw [DBMCache.get_put_self, if_neg (by omega)]
  · rw [DBMCache.get_put_self, if_pos (by omega)]

/-- Witness for `zero_ttl_by_revision`: stored at 0, read at 5. -/
theorem zero_ttl_by_revision_witness :
    ((GDBMCache.store_key ⟨0, ∅⟩ "K" [("call", PyObj.pyStr "W6BSD")] 0).2.get_key "K" 5
        = some (Dict.erase [("call", PyObj.pyStr "W6BSD")] GDBMCache._kexpire))
    ∧ ((DBMCache.put ⟨0, (∅ : Dict (CacheRecord Nat))⟩ "K" 7 0).get "K" 5 = none) :=
  ⟨(zero_ttl_by_revision 0 5 "K" 7 (∅ : Dict (CacheRecord Nat))
      [("call", PyObj.pyStr "W6BSD")] ∅).1,
   (zero_ttl_by_revision 0 5 "K" 7 (∅ : Dict (CacheRecord Nat))
      [("call", PyObj.pyStr "W6BSD")] ∅).2.2 (by norm_num)⟩

/-- C3, counterexample: `DBMCache.remove` on an absent key raises `KeyError`
(`none` here) instead of returning `false` — and on any key it returns `None`,
never a boolean. -/
theorem dbm_remove_absent_raises :
    DBMCache.remove (V := Nat) ⟨3600, ∅⟩ "A" = none := by rfl

/-- C3 (amended): `GDBMCache.expire` behaves as the claim says — it deletes a
present entry and reports `true`, reports `false` for an absent key without
error, and a second call on the same absent key again reports `false`;
`DBMCache.remove`, however, returns no boolean and raises `KeyError` when the
key is absent (deleting and returning `None` when it is present). -/
theorem remove_semantics_by_revision :
    (∀ (c : GDBMCache) (key : String), c.store.contains key = false →
        GDBMCache.expire c key = (false, c)
        ∧ GDBMCache.expire (GDBMCache.expire c key).2 key = (false, c))
    ∧ (∀ (c : GDBMCache) (key : String), c.store.contains key = true →
        GDBMCache.expire c key = (true, ⟨c._expire, c.store.erase key⟩))
    ∧ (∀ (V : Type) (db : DBMCache V) (key : String), db.store.contains key = false →
        DBMCache.remove db key = none)
    ∧ (∀ (V : Type) (db : DBMCache V) (key : String), db.store.contains key = true →
        DBMCache.remove db key = some ⟨db._cache_expire, db.store.erase key⟩) := by
  refine ⟨fun c key h => ?_, fun c key h => ?_, fun V db key h => ?_,
    fun V db key h => ?_⟩
  · constructor
    · simp [GDBMCache.expire, h]
    · simp [GDBMCache.expire, h]
  · simp [GDBMCache.expire, h]
  · simp [DBMCache.remove, h]
  · simp [DBMCache.remove, h]

/-- Witness for `remove_semantics_by_revision`: an absent and a present key. -/
theorem remove_semantics_by_revision_witness :
    (GDBMCache.expire ⟨3600, ∅⟩ "A" = (false, ⟨3600, ∅⟩)
      ∧ GDBMCache.expire (GDBMCache.expire ⟨3600, ∅⟩ "A").2 "A" = (false, ⟨3600, ∅⟩))
    ∧ DBMCache.remove (V := Nat) ⟨3600, [("K", ⟨0, 7⟩)]⟩ "K"
        = some ⟨3600, Dict.erase [("K", ⟨0, 7⟩)] "K"⟩ :=
  ⟨remove_semantics_by_revision.1 ⟨3600, ∅⟩ "A" rfl,
   remove_semantics_by_revision.2.2.2 Nat ⟨3600, [("K", ⟨0, 7⟩)]⟩ "K" rfl⟩

/-- C5: TTL-expression parsing — `"3Y"` yields `3 × 364 × 86400` seconds,
`"1H"` yields `3600`, the unitless `"10"` yields `10 × 60`, the lower-case
forms parse identically, and `"abc"` and `"-5D"` fail (the constructor raises
`SystemError`, modelled as `none`). -/
theorem ttl_parsing_examples :
    cacheExpireOf "3Y" = some (3 * 364 * 86400)
    ∧ cacheExpireOf "1H" = some 3600
    ∧ cacheExpireOf "10" = some (10 * 60)
    ∧ cacheExpireOf "abc" = none
    ∧ cacheExpireOf "-5D" = none
    ∧ cacheExpireOf "3y" = some (3 * 364 * 86400)
    ∧ cacheExpireOf "1h" = some 3600 := by decide

/-- Every TTL the constructor accepts is non-negative (a `Nat` magnitude times
a non-negative multiplier). -/
theorem cacheExpireOf_nonneg (s : String) (q : ℤ) (h : cacheExpireOf s = some q) :
    0 ≤ q := by
  unfold cacheExpireOf at h
  cases hp : parseExpire s with
  | none => rw [hp] at h; exact absurd h (by simp)
  | some tu =>
    obtain ⟨t, u⟩ := tu
    rw [hp] at h
    dsimp only at h
    cases hm : _EXPIRE_MULTIPLIER u with
    | none => rw [hm] at h; exact absurd h (by simp)
    | some m =>
      rw [hm] at h
      simp only [Option.some.injEq] at h
      subst h
      have hm0 : 0 ≤ m := by
        unfold _EXPIRE_MULTIPLIER at hm
        split at hm <;>
          first
          | (simp only [Option.some.injEq] at hm; omega)
          | exact absurd hm (by simp)
      exact mul_nonneg (Int.natCast_nonneg t) hm0

/-- C4: `put(k, v)` immediately followed by `get(k)` (no elapsed time) returns
`v` for every store whose TTL is non-negative, and every TTL `DBMCache`'s
constructor accepts is non-negative — so for every constructible store,
whether its TTL is `0` or positive, the just-written value is observed. -/
theorem put_then_get_immediate :
    (∀ (s : String) (q : ℤ), cacheExpireOf s = some q → 0 ≤ q)
    ∧ (∀ (V : Type) (db : DBMCache V) (k : String) (v : V) (t : ℤ),
        0 ≤ db._cache_expire → (db.put k v t).get k t = some v) := by
  refine ⟨cacheExpireOf_nonneg, fun V db k v t h => ?_⟩
  obtain ⟨ttl, d⟩ := db
  rw [DBMCache.get_put_self, if_neg (by simp only at h; omega)]

/-- Witness for `put_then_get_immediate`: the `"5Y"` TTL and one concrete
write-then-read at the same instant. -/
theorem put_then_get_immediate_witness :
    (0 ≤ (157248000 : ℤ))
    ∧ ((DBMCache.put ⟨3600, (∅ : Dict (CacheRecord Nat))⟩ "K" 7 5).get "K" 5
        = some 7) :=
  ⟨put_then_get_immediate.1 "5Y" 157248000 (by decide),
   put_then_get_immediate.2 Nat ⟨3600, ∅⟩ "K" 7 5 (by norm_num)⟩

/-- C6: when both stores miss, a fetch failure other than the authoritative
"not found" (`KeyError`) propagates to the caller with both stores untouched,
and the negative store can change only when the fetch outcome is an
authoritative "not found". -/
theorem only_notfound_memoized {V : Type} (st : QRZState V) (cs : String)
    (now : ℤ) :
    (∀ e, st._cache.get cs now = none → st._error.get cs now = none →
        QRZ.get_call st cs (FetchResult.fail e) now
          = (CallOutcome.raised e, st, true))
    ∧ (∀ fetch : FetchResult V,
        ((QRZ.get_call st cs fetch now).2.1)._error ≠ st._error →
        ∃ m, fetch = FetchResult.notFound m) := by
  constructor
  · intro e h1 h2
    simp [QRZ.get_call, h1, h2]
  · intro fetch h
    unfold QRZ.get_call at h
    cases hc : st._cache.get cs now with
    | some v => rw [hc] at h; simp at h
    | none =>
      rw [hc] at h
      cases he : st._error.get cs now with
      | some m => rw [he] at h; simp at h
      | none =>
        rw [he] at h
        cases fetch with
        | ok d => simp at h
        | notFound m => exact ⟨m, rfl⟩
        | fail e => simp at h

/-- Witness for `only_notfound_memoized`: a session failure on empty stores
propagates with the state unchanged. -/
theorem only_notfound_memoized_witness :
    QRZ.get_call (V := Nat) ⟨⟨3600, ∅⟩, ⟨60, ∅⟩⟩ "K" (FetchResult.fail "SessionError") 0
      = (CallOutcome.raised "SessionError", ⟨⟨3600, ∅⟩, ⟨60, ∅⟩⟩, true) :=
  (only_notfound_memoized ⟨⟨3600, ∅⟩, ⟨60, ∅⟩⟩ "K" 0).1 "SessionError"
    (by decide) (by decide)

/-- C7: `get_call` consults the positive store first (a hit returns the record
without invoking the fetch collaborator), then the negative store (a hit
returns "known absent" without invoking the collaborator), and invokes the
collaborator exactly on a double miss. -/
theorem lookup_order (V : Type) (st : QRZState V) (cs : String) (now : ℤ)
    (fetch : FetchResult V) :
    (∀ v, st._cache.get cs now = some v →
        QRZ.get_call st cs fetch now = (CallOutcome.found v, st, false))
    ∧ (∀ m, st._cache.get cs now = none → st._error.get cs now = some m →
        QRZ.get_call st cs fetch now = (CallOutcome.knownAbsent, st, false))
    ∧ (st._cache.get cs now = none → st._error.get cs now = none →
        (QRZ.get_call st cs fetch now).2.2 = true) := by
  refine ⟨fun v h => ?_, fun m h1 h2 => ?_, fun h1 h2 => ?_⟩
  · simp [QRZ.get_call, h]
  · simp [QRZ.get_call, h1, h2]
  · cases fetch <;> simp [QRZ.get_call, h1, h2]

/-- Witness for `lookup_order`: a positive hit, a negative hit, and a double
miss on concrete stores. -/
theorem lookup_order_witness :
    (QRZ.get_call (V := Nat) ⟨⟨3600, [("K", ⟨0, 7⟩)]⟩, ⟨60, ∅⟩⟩ "K"
        (FetchResult.ok 9) 0
      = (CallOutcome.found 7, ⟨⟨3600, [("K", ⟨0, 7⟩)]⟩, ⟨60, ∅⟩⟩, false))
    ∧ (QRZ.get_call (V := Nat) ⟨⟨3600, ∅⟩, ⟨60, [("K", ⟨0, "e"⟩)]⟩⟩ "K"
        (FetchResult.ok 9) 0
      = (CallOutcome.knownAbsent, ⟨⟨3600, ∅⟩, ⟨60, [("K", ⟨0, "e"⟩)]⟩⟩, false))
    ∧ ((QRZ.get_call (V := Nat) ⟨⟨3600, ∅⟩, ⟨60, ∅⟩⟩ "K"
        (FetchResult.ok 9) 0).2.2 = true) :=
  ⟨(lookup_order Nat ⟨⟨3600, [("K", ⟨0, 7⟩)]⟩, ⟨60, ∅⟩⟩ "K" 0 (FetchResult.ok 9)).1 7
      (by decide),
   (lookup_order Nat ⟨⟨3600, ∅⟩, ⟨60, [("K", ⟨0, "e"⟩)]⟩⟩ "K" 0 (FetchResult.ok 9)).2.1
      "e" (by decide) (by decide),
   (lookup_order Nat ⟨⟨3600, ∅⟩, ⟨60, ∅⟩⟩ "K" 0 (FetchResult.ok 9)).2.2
      (by decide) (by decide)⟩

/-- C8: after one `put` on an empty store, `len` reports 1; past the TTL,
`get` fails (and, being a pure read in this model as in the source, removes
nothing), yet `len` still reports 1 until `remove` drops the entry, after
which it reports 0. -/
theorem size_includes_stale {V : Type} (ttl t0 now : ℤ) (k : String) (v : V)
    (h : t0 + ttl < now) :
    ((DBMCache.put ⟨ttl, ∅⟩ k v t0).len = 1)
    ∧ ((DBMCache.put ⟨ttl, ∅⟩ k v t0).get k now = none)
    ∧ (Option.map DBMCache.len ((DBMCache.put ⟨ttl, ∅⟩ k v t0).remove k)
        = some 0) := by
  refine ⟨rfl, ?_, ?_⟩
  · rw [DBMCache.get_put_self, if_pos h]
  · simp [DBMCache.put, DBMCache.remove, DBMCache.len, Dict.insert,
      Dict.contains, Dict.erase, Dict.size]

/-- Witness for `size_includes_stale`: TTL 3600, written at 0, read at 7200. -/
theorem size_includes_stale_witness :
    ((0 : ℤ) + 3600 < 7200)
    ∧ ((DBMCache.put (V := Nat) ⟨3600, ∅⟩ "K" 7 0).len = 1)
    ∧ ((DBMCache.put (V := Nat) ⟨3600, ∅⟩ "K" 7 0).get "K" 7200 = none)
    ∧ (Option.map DBMCache.len ((DBMCache.put (V := Nat) ⟨3600, ∅⟩ "K" 7 0).remove "K")
        = some 0) :=
  ⟨by norm_num,
   (size_includes_stale 3600 0 7200 "K" 7 (by norm_num)).1,
   (size_includes_stale 3600 0 7200 "K" 7 (by norm_num)).2.1,
   (size_includes_stale 3600 0 7200 "K" 7 (by norm_num)).2.2⟩

/-- C9, counterexample: with a record cached under `"W6BSD"`, `get_call` for
`"w6bsd"` misses both stores and invokes the fetch collaborator (storing the
negative result under the verbatim key `"w6bsd"`), while `get_call` for
`"W6BSD"` hits — the same identifier in different letter cases does not reach
the same cache entry, because `get_call` uses the callsign exactly as passed
as the store key. -/
theorem case_sensitivity_counterexample :
    ((QRZ.get_call (V := Nat) ⟨⟨94348800, [("W6BSD", ⟨0, 7⟩)]⟩, ⟨7905600, ∅⟩⟩ "w6bsd"
        (FetchResult.notFound "Not found: w6bsd") 0).2.2 = true)
    ∧ ((QRZ.get_call (V := Nat) ⟨⟨94348800, [("W6BSD", ⟨0, 7⟩)]⟩, ⟨7905600, ∅⟩⟩ "W6BSD"
        (FetchResult.notFound "Not found: w6bsd") 0).2.2 = false)
    ∧ (((QRZ.get_call (V := Nat) ⟨⟨94348800, [("W6BSD", ⟨0, 7⟩)]⟩, ⟨7905600, ∅⟩⟩ "w6bsd"
        (FetchResult.notFound "Not found: w6bsd") 0).2.1)._error.store.lookup "w6bsd"
        = some ⟨0, "Not found: w6bsd"⟩) := by decide

/-- C9 (amended): the key under which `get_call` stores and reads entries in
both stores is the identifier exactly as passed — no case normalization
happens in the orchestrator (only the network request inside `_get_call`
upper-cases, and the interactive caller upper-cases before calling). -/
theorem verbatim_store_keys {V : Type} (st : QRZState V) (cs : String) (now : ℤ)
    (m : String) (v : V)
    (h1 : st._cache.get cs now = none) (h2 : st._error.get cs now = none) :
    (((QRZ.get_call st cs (FetchResult.notFound m) now).2.1)._error.store.lookup cs
        = some ⟨now, m⟩)
    ∧ (((QRZ.get_call st cs (FetchResult.ok v) now).2.1)._cache.store.lookup cs
        = some ⟨now, v⟩) := by
  constructor <;>
    simp [QRZ.get_call, h1, h2, DBMCache.put, Dict.lookup_insert_self]

/-- Witness for `verbatim_store_keys`: empty stores, callsign `"w6bsd"`. -/
theorem verbatim_store_keys_witness :
    (((QRZ.get_call (V := Nat) ⟨⟨3600, ∅⟩, ⟨60, ∅⟩⟩ "w6bsd"
        (FetchResult.notFound "e") 0).2.1)._error.store.lookup "w6bsd"
        = some ⟨0, "e"⟩)
    ∧ (((QRZ.get_call (V := Nat) ⟨⟨3600, ∅⟩, ⟨60, ∅⟩⟩ "w6bsd"
        (FetchResult.ok 7) 0).2.1)._cache.store.lookup "w6bsd"
        = some ⟨0, 7⟩) :=
  verbatim_store_keys ⟨⟨3600, ∅⟩, ⟨60, ∅⟩⟩ "w6bsd" 0 "e" 7 (by decide) (by decide)

/-- C10: through the decorator wrapper, a fresh fetch returns the very record
`store_key` mutated in place — it contains the internal expiry key
`"_GDBMCache_expire_"` mapped to the write time — while a cache hit returns
the stored record with that key deleted by `get_key`. -/
theorem decorator_expiry_key_effect (c : GDBMCache) (key : String) (now : ℤ)
    (r : Record) :
    (c.get_key key now = none →
        c.gdb_cache key (Except.ok r) now = Except.ok (c.store_key key r now)
        ∧ Dict.lookup (c.store_key key r now).1 GDBMCache._kexpire
            = some (PyObj.pyNum now))
    ∧ (∀ rec, c.get_key key now = some rec →
        Dict.lookup rec GDBMCache._kexpire = none
        ∧ c.gdb_cache key (Except.ok r) now = Except.ok (rec, c)) := by
  constructor
  · intro h
    constructor
    · simp [GDBMCache.gdb_cache, h]
    · simp [GDBMCache.store_key, Dict.lookup_insert_self]
  · intro rec h
    constructor
    · unfold GDBMCache.get_key at h
      cases hl : c.store.lookup key with
      | none => rw [hl] at h; simp at h
      | some record =>
        rw [hl] at h
        dsimp only at h
        cases hk : Dict.lookup record GDBMCache._kexpire with
        | none => rw [hk] at h; simp at h
        | some o =>
          rw [hk] at h
          cases o with
          | pyNone => simp at h
          | pyStr s => simp at h
          | pyNum t =>
            dsimp only at h
            by_cases hc : c._expire = 0 ∨ t > now - c._expire
            · rw [if_pos hc] at h
              simp only [Option.some.injEq] at h
              subst h
              exact Dict.lookup_erase_self record GDBMCache._kexpire
            · rw [if_neg hc] at h
              simp at h
    · simp [GDBMCache.gdb_cache, h]

/-- Witness for `decorator_expiry_key_effect`: a miss on the empty cache, then
a hit on the cache holding the stored record. -/
theorem decorator_expiry_key_effect_witness :
    (GDBMCache.gdb_cache ⟨3600, ∅⟩ "K" (Except.ok [("call", PyObj.pyStr "W6BSD")]) 0
        = Except.ok (GDBMCache.store_key ⟨3600, ∅⟩ "K" [("call", PyObj.pyStr "W6BSD")] 0)
      ∧ Dict.lookup (GDBMCache.store_key ⟨3600, ∅⟩ "K"
            [("call", PyObj.pyStr "W6BSD")] 0).1 GDBMCache._kexpire
          = some (PyObj.pyNum 0))
    ∧ (Dict.lookup [("call", PyObj.pyStr "W6BSD")] GDBMCache._kexpire = none
      ∧ GDBMCache.gdb_cache
          ⟨3600, [("K", [("_GDBMCache_expire_", PyObj.pyNum 0),
                         ("call", PyObj.pyStr "W6BSD")])]⟩
          "K" (Except.ok []) 10
        = Except.ok ([("call", PyObj.pyStr "W6BSD")],
            ⟨3600, [("K", [("_GDBMCache_expire_", PyObj.pyNum 0),
                           ("call", PyObj.pyStr "W6BSD")])]⟩)) :=
  ⟨(decorator_expiry_key_effect ⟨3600, ∅⟩ "K" 0 [("call", PyObj.pyStr "W6BSD")]).1
      (by decide),
   (decorator_expiry_key_effect
      ⟨3600, [("K", [("_GDBMCache_expire_", PyObj.pyNum 0),
                     ("call", PyObj.pyStr "W6BSD")])]⟩ "K" 10 []).2
      [("call", PyObj.pyStr "W6BSD")] (by decide)⟩

end Qrzlib
